import Mathlib

/-!
Shallow embedding of `src/spirc/mod.rs` (librespot Spirc orchestrator).

Machine integers are modelled as `Nat`/`Int` with explicit reductions:
`u16`/`u32`/`u64` values are `Nat` reduced `% 2^16` / `% 2^32` / `% 2^64`
where the code can overflow, `i64` values are `Int`.  Rust arithmetic that
panics (`% 0`, `.unwrap()` on `None`) is modelled with `Option`/an explicit
outcome type, `none` (resp. `.panics`) standing for the panic.  Integer
overflow of `u32` addition is modelled with release-mode wrapping
semantics (`% 2^32`); in debug builds the same inputs panic, so every
statement made below about a wrapping input also witnesses the absence of
the mathematical-integer result under either semantics.

Side effects of the orchestrator (Player commands, outbound Notify
envelopes) are reified as an ordered list of `Action` values produced next
to the state update.
-/

namespace Spirc

/-- Cast of a `u64` value (a `Nat` below `2^64`) through Rust `as i64`:
reinterpretation of the 64-bit pattern as a signed value. -/
def i64ofU64 (n : Nat) : Int :=
  if n % 2 ^ 64 < 2 ^ 63 then ((n % 2 ^ 64 : Nat) : Int)
  else ((n % 2 ^ 64 : Nat) : Int) - 2 ^ 64

/-- `protocol::spirc::PlayStatus`. -/
inductive PlayStatus where
  | kPlayStatusStop
  | kPlayStatusPlay
  | kPlayStatusPause
deriving DecidableEq, Repr

/-- `protocol::spirc::MessageType` (the constructors the dispatch in
`process_frame` distinguishes, plus representatives of the catch-all arm). -/
inductive MessageType where
  | kMessageTypeHello
  | kMessageTypeNotify
  | kMessageTypeVolume
  | kMessageTypeLoad
  | kMessageTypePlay
  | kMessageTypePause
deriving DecidableEq, Repr

/-- `util::SpotifyId`.  The type lives outside `src/`; modelled from the
spec, which treats track identifiers opaquely ("track references that carry
a valid identifier"), as the raw gid bytes.  `SpotifyId::from_raw` wraps
them. -/
structure SpotifyId where
  raw : List Nat
deriving DecidableEq, Repr

/-- Modelled from the spec: `SpotifyId::from_raw` (outside `src/`) builds a
track identifier from the raw gid bytes of a track reference. -/
def SpotifyId.from_raw (g : List Nat) : SpotifyId := ⟨g⟩

/-- `protocol::spirc::TrackRef`: an optional gid (`has_gid`/`get_gid`). -/
structure TrackRef where
  gid : Option (List Nat) := none
deriving DecidableEq, Repr

/-- `protocol::spirc::CapabilityType`. -/
inductive CapabilityType where
  | kCanBePlayer
  | kDeviceType
  | kGaiaEqConnectId
  | kSupportsLogout
  | kSupportsRename
  | kIsObservable
  | kVolumeSteps
  | kSupportedContexts
  | kSupportedTypes
deriving DecidableEq, Repr

/-- `protocol::spirc::Capability`. -/
structure Capability where
  typ : CapabilityType
  intValue : List Int := []
  stringValue : List String := []
deriving DecidableEq, Repr

/-- `protocol::spirc::DeviceState`, with protobuf defaults for absent
fields. -/
structure DeviceState where
  sw_version : String := ""
  is_active : Bool := false
  became_active_at : Int := 0
  can_play : Bool := false
  volume : Nat := 0
  name : String := ""
  error_code : Nat := 0
  capabilities : List Capability := []
deriving DecidableEq, Repr

/-- `protocol::spirc::State` (the playback-state snapshot message): the
fields `process_frame`/`load_tracks` read. -/
structure State where
  playing_track_index : Nat := 0
  track : List TrackRef := []
deriving DecidableEq, Repr

/-- `protocol::spirc::Frame`: the fields the orchestrator reads.  Protobuf
getters return the default for absent sub-messages, so `device_state` and
`state` are plain fields holding that default when absent. -/
structure Frame where
  typ : MessageType
  ident : String := ""
  seq_nr : Nat := 0
  state_update_id : Int := 0
  recipient : List String := []
  device_state : DeviceState := {}
  state : State := {}
  volume : Nat := 0
deriving DecidableEq, Repr

/-- `SpircState` (the local playback state). -/
structure SpircState where
  name : String
  volume : Nat
  is_active : Bool
  became_active_at : Int
  status : PlayStatus
  index : Nat
  tracks : List SpotifyId
  update_id : Int
  position_ms : Nat
  position_measured_at : Nat
deriving DecidableEq, Repr

/-- `SpircState::new`. -/
def SpircState.new (name : String) : SpircState :=
  { name := name
    volume := 0xFFFF
    is_active := false
    became_active_at := 0
    status := PlayStatus.kPlayStatusStop
    index := 0
    tracks := []
    update_id := 0
    position_ms := 0
    position_measured_at := 0 }

/-- The track list `SpircState::load_tracks` builds from a `State` message:
keep the references with a gid, in order, and map them through
`SpotifyId::from_raw`. -/
def loadedTracks (st : State) : List SpotifyId :=
  (st.track.filter fun t => t.gid.isSome).map fun t => SpotifyId.from_raw (t.gid.getD [])

/-- `SpircState::load_tracks`. -/
def SpircState.load_tracks (s : SpircState) (st : State) : SpircState :=
  { s with index := st.playing_track_index, tracks := loadedTracks st }

/-- Observable side effects of the orchestrator, in issue order:
`Player::stop`, `Player::load(track)`, and `notify(recipient)` where
`none` is a broadcast Notify and `some id` a unicast one. -/
inductive Action where
  | playerStop
  | playerLoad (id : SpotifyId)
  | notify (recipient : Option String)
deriving DecidableEq, Repr

/-- Whether an action is a broadcast (recipient-less) Notify. -/
def isBroadcastNotify : Action → Bool
  | Action.notify none => true
  | _ => false

/-- Number of broadcast Notify envelopes among the actions. -/
def countBroadcast (as : List Action) : Nat :=
  (as.filter isBroadcastNotify).length

/-- Step 1 of `process_frame` (lines 142-144): adopt the frame's
`state_update_id` when it exceeds the local `update_id`. -/
def clockMerge (s : SpircState) (f : Frame) : SpircState :=
  if s.update_id < f.state_update_id then { s with update_id := f.state_update_id } else s

/-- Step 2 of `process_frame` (lines 146-155): last-writer-wins demotion of
the local active role, stopping the Player and broadcasting a Notify. -/
def handoff (s : SpircState) (f : Frame) : SpircState × List Action :=
  if f.device_state.is_active && s.is_active
      && decide (s.became_active_at < f.device_state.became_active_at) then
    ({ s with is_active := false, status := PlayStatus.kPlayStatusStop },
     [Action.playerStop, Action.notify none])
  else
    (s, [])

/-- Step 3 of `process_frame` (lines 157-190): dispatch on the message
kind.  `now` is `session.time()` (a `u64` millisecond clock). -/
def dispatch (now : Nat) (s : SpircState) (f : Frame) : SpircState × List Action :=
  match f.typ with
  | MessageType.kMessageTypeHello => (s, [Action.notify (some f.ident)])
  | MessageType.kMessageTypeVolume =>
      ({ s with volume := f.volume % 2 ^ 16 }, [Action.notify none])
  | MessageType.kMessageTypeLoad =>
      let s1 : SpircState := { s with update_id := i64ofU64 now }
      let s2 : SpircState :=
        if s1.is_active then s1
        else { s1 with is_active := true, became_active_at := i64ofU64 now }
      let s3 : SpircState := s2.load_tracks f.state
      if h : s3.index < s3.tracks.length then
        ({ s3 with status := PlayStatus.kPlayStatusPlay, position_ms := 0,
                   position_measured_at := now % 2 ^ 64 },
         [Action.playerLoad (s3.tracks.get ⟨s3.index, h⟩), Action.notify none])
      else
        (s3, [Action.notify none])
  | _ => (s, [])

/-- `SpircManager::process_frame`: clock merge, then the active-handoff
check, then kind dispatch; actions accumulate in issue order. -/
def processFrame (now : Nat) (s : SpircState) (f : Frame) : SpircState × List Action :=
  let s1 := clockMerge s f
  let h := handoff s1 f
  let d := dispatch now h.1 f
  (d.1, h.2 ++ d.2)

/-- State reached after processing a sequence of inbound frames. -/
def processFrames (now : Nat) (s : SpircState) (fs : List Frame) : SpircState :=
  fs.foldl (fun a f => (processFrame now a f).1) s

/-- Maximum of a starting value and the `state_update_id`s of a frame
list. -/
def maxUpdate (u : Int) (fs : List Frame) : Int :=
  fs.foldl (fun a f => max a f.state_update_id) u

/-- The `PlayerEvent::TrackEnd` arm of `SpircManager::poll`
(lines 326-337).  `self.state.index + 1` is a `u32` addition (wrapping,
see the module comment) and `% self.state.tracks.len()` panics when the
track list is empty — the panic is modelled by `none`. -/
def handleTrackEnd (now : Nat) (s : SpircState) : Option (SpircState × List Action) :=
  if h : s.tracks.length = 0 then none
  else
    let idx : Nat := ((s.index + 1) % 2 ^ 32) % s.tracks.length
    some ({ s with index := idx,
                   update_id := i64ofU64 now,
                   position_ms := 0,
                   position_measured_at := now % 2 ^ 64 },
          [Action.playerLoad (s.tracks.get ⟨idx, Nat.mod_lt _ (Nat.pos_of_ne_zero h)⟩),
           Action.notify none])

/-- `SpircManager::next_seq` acting on the `u32` counter `seq_nr`: the
incremented counter is both stored and returned. -/
def next_seq (seq_nr : Nat) : Nat :=
  (seq_nr + 1) % 2 ^ 32

/-- Counter value after `k` calls to `next_seq` from a fresh orchestrator
(`seq_nr = 0`); for `k ≥ 1` this is also the value returned by the `k`-th
call. -/
def seq_after : Nat → Nat
  | 0 => 0
  | k + 1 => next_seq (seq_after k)

/-- The filter of `build_subscription` (lines 115-119): keep a frame iff
its sender is not this endpoint and the recipient list is empty or
contains this endpoint. -/
def filter_pass (ident : String) (f : Frame) : Bool :=
  f.ident != ident && (f.recipient.length == 0 || f.recipient.contains ident)

/-- Outcome of the decode step of `build_subscription` on one raw packet:
a panic (from `pkt.payload.first().unwrap()`), a decode error propagated
onto the stream (from `parse_from_bytes(..)?`), or a frame. -/
inductive DecodeOutcome where
  | panics
  | fails
  | ok (f : Frame)
deriving DecidableEq, Repr

/-- The decode step of `build_subscription` (lines 101-104): take the first
payload part with `.first().unwrap()` — a panic when the payload list is
empty — then parse it, `?`-propagating a parse failure. -/
def decode_step (parse : List Nat → Option Frame) (payload : List (List Nat)) : DecodeOutcome :=
  match payload.head? with
  | none => DecodeOutcome.panics
  | some d =>
      match parse d with
      | none => DecodeOutcome.fails
      | some f => DecodeOutcome.ok f

/-- `SpircManager::device_state` (lines 238-292), written as the sequence
of field assignments the `protobuf_init!` macro performs, in source order:
`became_active_at` is assigned twice, first the local value (line 242) and
then `0` (line 247). -/
def device_state (s : SpircState) : DeviceState :=
  let d : DeviceState := {}
  let d := { d with sw_version := "librespot-v0.2" }
  let d := { d with is_active := s.is_active }
  let d := { d with became_active_at := s.became_active_at }
  let d := { d with can_play := true }
  let d := { d with volume := s.volume }
  let d := { d with name := s.name }
  let d := { d with error_code := 0 }
  let d := { d with became_active_at := 0 }
  { d with capabilities :=
      [ { typ := CapabilityType.kCanBePlayer, intValue := [0] },
        { typ := CapabilityType.kDeviceType, intValue := [1] },
        { typ := CapabilityType.kGaiaEqConnectId, intValue := [1] },
        { typ := CapabilityType.kSupportsLogout, intValue := [1] },
        { typ := CapabilityType.kSupportsRename, intValue := [1] },
        { typ := CapabilityType.kIsObservable, intValue := [1] },
        { typ := CapabilityType.kVolumeSteps, intValue := [10] },
        { typ := CapabilityType.kSupportedContexts, stringValue := [] },
        { typ := CapabilityType.kSupportedTypes,
          stringValue := ["audio/local", "audio/track", "local", "track"] } ] }

/-! ### Helper lemmas -/

@[simp] theorem clockMerge_update_id (s : SpircState) (f : Frame) :
    (clockMerge s f).update_id = max s.update_id f.state_update_id := by
  unfold clockMerge
  split
  · next h => exact (max_eq_right h.le).symm
  · next h => exact (max_eq_left (not_lt.mp h)).symm

@[simp] theorem clockMerge_is_active (s : SpircState) (f : Frame) :
    (clockMerge s f).is_active = s.is_active := by
  unfold clockMerge; split <;> rfl

@[simp] theorem clockMerge_became_active_at (s : SpircState) (f : Frame) :
    (clockMerge s f).became_active_at = s.became_active_at := by
  unfold clockMerge; split <;> rfl

@[simp] theorem clockMerge_status (s : SpircState) (f : Frame) :
    (clockMerge s f).status = s.status := by
  unfold clockMerge; split <;> rfl

@[simp] theorem clockMerge_volume (s : SpircState) (f : Frame) :
    (clockMerge s f).volume = s.volume := by
  unfold clockMerge; split <;> rfl

@[simp] theorem handoff_fst_update_id (s : SpircState) (f : Frame) :
    (handoff s f).1.update_id = s.update_id := by
  unfold handoff; split <;> rfl

@[simp] theorem handoff_fst_volume (s : SpircState) (f : Frame) :
    (handoff s f).1.volume = s.volume := by
  unfold handoff; split <;> rfl

theorem handoff_demote (s : SpircState) (f : Frame)
    (h1 : f.device_state.is_active = true) (h2 : s.is_active = true)
    (h3 : s.became_active_at < f.device_state.became_active_at) :
    handoff s f =
      ({ s with is_active := false, status := PlayStatus.kPlayStatusStop },
       [Action.playerStop, Action.notify none]) := by
  unfold handoff
  rw [h1, h2]
  simp [h3]

theorem handoff_no_demote (s : SpircState) (f : Frame)
    (h3 : f.device_state.became_active_at ≤ s.became_active_at) :
    handoff s f = (s, []) := by
  unfold handoff
  have hd : decide (s.became_active_at < f.device_state.became_active_at) = false :=
    decide_eq_false (not_lt.mpr h3)
  rw [hd]
  simp

theorem handoff_inactive (s : SpircState) (f : Frame) (h : s.is_active = false) :
    handoff s f = (s, []) := by
  unfold handoff
  rw [h]
  simp

/-! ### C6: inbound filtering -/

/-- C6: an inbound envelope passes the subscription filter if and only if
its `sender_id` (`ident`) differs from the orchestrator's own identity and
its recipient list is empty or contains the own identity; a self-sent
envelope, or one targeted at a non-empty recipient set excluding self, is
never dispatched. -/
theorem filter_pass_iff (ident : String) (f : Frame) :
    filter_pass ident f = true ↔
      (f.ident ≠ ident ∧ (f.recipient = [] ∨ ident ∈ f.recipient)) := by
  simp [filter_pass, List.length_eq_zero, List.elem_iff]

/-! ### C10: decode step of the inbound subscription -/

/-- C10: the decode step of `build_subscription` extracts the first payload
part with `unwrap()`: it panics exactly on packets whose payload list is
empty (rather than yielding a decode error on the stream), so the
non-panicking outcomes require a non-empty payload. -/
theorem decode_step_panics_iff (parse : List Nat → Option Frame)
    (payload : List (List Nat)) :
    decode_step parse payload = DecodeOutcome.panics ↔ payload = [] := by
  cases payload with
  | nil => simp [decode_step]
  | cons d rest =>
      simp only [decode_step, List.head?]
      cases parse d <;> simp

/-! ### C3: TrackEnded on an empty track list -/

/-- C3: the `TrackEnd` arm of `poll` is not guarded against an empty track
list: on the fresh state (whose `track_list` is empty) it evaluates
`(index + 1) % 0`, a division by zero, modelled by `none` (a panic) —
playback is not left stopped. -/
theorem track_end_empty_list_panics :
    handleTrackEnd 5 (SpircState.new "speaker") = none := rfl

/-! ### C4: device descriptor and `became_active_at` -/

/-- C4: `device_state()` assigns `became_active_at` twice — the local value
first, then the literal `0` — so the produced descriptor reports
`is_active` faithfully but `became_active_at = 0` instead of the local
value (here 100), defeating last-writer-wins arbitration by peers. -/
theorem device_state_became_active_at_zero :
    (device_state
        { SpircState.new "speaker" with is_active := true, became_active_at := 100 }).is_active
      = true ∧
    (device_state
        { SpircState.new "speaker" with is_active := true, became_active_at := 100 }).became_active_at
      = 0 :=
  ⟨rfl, rfl⟩

/-! ### C8: sequence numbers -/

theorem seq_after_eq (k : Nat) : seq_after k = k % 2 ^ 32 := by
  induction k with
  | zero => simp [seq_after]
  | succ n ih => rw [seq_after, ih, next_seq, Nat.mod_add_mod]

/-- C8, counterexample: the `seq_nr` counter is a `u32`, so the
`2^32`-th call to `next_seq` from a fresh orchestrator returns `0`, not
`2^32`: the returned values are not `1..N` for `N = 2^32`. -/
theorem next_seq_wraps_at_2_32 :
    seq_after 4294967296 = 0 ∧ (0 : Nat) ≠ 4294967296 := by
  refine ⟨?_, by decide⟩
  rw [seq_after_eq]
  decide

/-- C8 (amended): for every `N < 2^32`, the `k`-th of `N` consecutive calls
to `next_seq` from a fresh orchestrator (counter 0) returns `k`, so the
returned values are `1, 2, ..., N` in order with no gaps and no repeats. -/
theorem next_seq_values (N k : Nat) (hN : N < 2 ^ 32) (h1 : 1 ≤ k) (hk : k ≤ N) :
    seq_after k = k := by
  rw [seq_after_eq]
  exact Nat.mod_eq_of_lt (lt_of_le_of_lt hk hN)

/-- C8 witness: five consecutive sends, the third returns 3. -/
theorem next_seq_values_witness :
    (5 : Nat) < 2 ^ 32 ∧ 1 ≤ 3 ∧ 3 ≤ 5 ∧ seq_after 3 = 3 :=
  ⟨by decide, by decide, by decide, next_seq_values 5 3 (by decide) (by decide) (by decide)⟩

/-! ### C9: VolumeSet handling -/

/-- C9: a `Volume` envelope makes `process_frame` store the carried `u32`
volume reduced `% 2^16` into the local `u16` volume field (the `as u16`
cast truncates — no rejection, no clamp) and broadcast a Notify. -/
theorem process_volume (now : Nat) (s : SpircState) (f : Frame)
    (h : f.typ = MessageType.kMessageTypeVolume) :
    (processFrame now s f).1.volume = f.volume % 2 ^ 16 ∧
    Action.notify none ∈ (processFrame now s f).2 := by
  obtain ⟨typ, ident, seqn, suid, recp, dev, st, vol⟩ := f
  simp only at h
  subst h
  constructor
  · simp [processFrame, dispatch]
  · simp [processFrame, dispatch]

/-- Concrete VolumeSet envelope: out-of-range carried value 70000. -/
def frameVol : Frame := { typ := MessageType.kMessageTypeVolume, ident := "b", volume := 70000 }

/-- C9 witness: volume 70000 is truncated to 4464 (= 70000 mod 65536), not
clamped to 65535, and a broadcast Notify is emitted. -/
theorem process_volume_witness :
    frameVol.typ = MessageType.kMessageTypeVolume ∧
    (processFrame 0 (SpircState.new "a") frameVol).1.volume = 4464 ∧
    Action.notify none ∈ (processFrame 0 (SpircState.new "a") frameVol).2 := by
  have h := process_volume 0 (SpircState.new "a") frameVol rfl
  exact ⟨rfl, by rw [h.1]; decide, h.2⟩

/-! ### C1: update_id as a running maximum -/

theorem processFrame_update_id (now : Nat) (s : SpircState) (f : Frame)
    (h : f.typ ≠ MessageType.kMessageTypeLoad) :
    (processFrame now s f).1.update_id = max s.update_id f.state_update_id := by
  obtain ⟨typ, ident, seqn, suid, recp, dev, st, vol⟩ := f
  simp only at h
  cases typ <;>
    first
    | exact absurd rfl h
    | simp [processFrame, dispatch]

theorem le_maxUpdate (fs : List Frame) (u : Int) : u ≤ maxUpdate u fs := by
  induction fs generalizing u with
  | nil => exact le_refl u
  | cons f rest ih =>
      exact le_trans (le_max_left u f.state_update_id) (ih (max u f.state_update_id))

/-- C1 (amended): for every sequence of inbound envelopes none of which is
a `Load`, the local `update_id` after processing equals the maximum of its
prior value and every `state_update_id` carried by those envelopes, and it
never decreases.  (`Load` handling instead overwrites `update_id` with the
current wall-clock time, which can lower it — see the counterexample.) -/
theorem update_id_running_max (now : Nat) (s : SpircState) (fs : List Frame)
    (h : ∀ f ∈ fs, f.typ ≠ MessageType.kMessageTypeLoad) :
    (processFrames now s fs).update_id = maxUpdate s.update_id fs ∧
    s.update_id ≤ (processFrames now s fs).update_id := by
  induction fs generalizing s with
  | nil => exact ⟨rfl, le_refl _⟩
  | cons f rest ih =>
      have hf : f.typ ≠ MessageType.kMessageTypeLoad := h f (List.mem_cons_self f rest)
      have hrest : ∀ g ∈ rest, g.typ ≠ MessageType.kMessageTypeLoad :=
        fun g hg => h g (List.mem_cons_of_mem f hg)
      have step := processFrame_update_id now s f hf
      have ihh := ih (processFrame now s f).1 hrest
      have hcons : processFrames now s (f :: rest)
          = processFrames now (processFrame now s f).1 rest := rfl
      constructor
      · rw [hcons, ihh.1, step]
        rfl
      · rw [hcons]
        exact le_trans (le_trans (le_max_left s.update_id f.state_update_id) step.ge) ihh.2

/-- Concrete Load envelope carrying `state_update_id = 0`. -/
def frameLoad0 : Frame := { typ := MessageType.kMessageTypeLoad, ident := "b" }

/-- C1 counterexample: processing a `Load` envelope at wall-clock time 50
while the local `update_id` is 100 sets `update_id` to 50 — the update id
decreases, and does not equal the maximum of the prior value (100) and the
envelope's `state_update_id` (0). -/
theorem load_lowers_update_id :
    (processFrame 50 { SpircState.new "a" with update_id := 100 } frameLoad0).1.update_id = 50 ∧
    (50 : Int) < 100 := by
  exact ⟨by decide, by decide⟩

/-- C1 witness: from `update_id = 0`, a Hello envelope with
`state_update_id = 5` followed by a Pause envelope with
`state_update_id = 3` leaves `update_id = 5 = max (max 0 5) 3`. -/
theorem update_id_running_max_witness :
    (processFrames 0 (SpircState.new "a")
        [{ typ := MessageType.kMessageTypeHello, ident := "b", state_update_id := 5 },
         { typ := MessageType.kMessageTypePause, ident := "b", state_update_id := 3 }]).update_id
      = 5 ∧
    (SpircState.new "a").update_id ≤ 5 := by
  have h := update_id_running_max 0 (SpircState.new "a")
      [{ typ := MessageType.kMessageTypeHello, ident := "b", state_update_id := 5 },
       { typ := MessageType.kMessageTypePause, ident := "b", state_update_id := 3 }]
      (by intro f hf; fin_cases hf <;> decide)
  refine ⟨?_, ?_⟩
  · rw [h.1]; decide
  · have h2 := h.2
    rw [h.1] at h2
    simpa using h2

/-! ### C2: active-device arbitration -/

theorem countBroadcast_append (a b : List Action) :
    countBroadcast (a ++ b) = countBroadcast a + countBroadcast b := by
  simp [countBroadcast, List.filter_append]

theorem dispatch_preserves_state (now : Nat) (s : SpircState) (f : Frame)
    (hnl : f.typ ≠ MessageType.kMessageTypeLoad)
    (hnv : f.typ ≠ MessageType.kMessageTypeVolume) :
    (dispatch now s f).1 = s := by
  obtain ⟨typ, ident, seqn, suid, recp, dev, st, vol⟩ := f
  simp only at hnl hnv
  cases typ <;> first | exact absurd rfl hnl | exact absurd rfl hnv | rfl

theorem dispatch_no_broadcast (now : Nat) (s : SpircState) (f : Frame)
    (hnl : f.typ ≠ MessageType.kMessageTypeLoad)
    (hnv : f.typ ≠ MessageType.kMessageTypeVolume) :
    countBroadcast (dispatch now s f).2 = 0 := by
  obtain ⟨typ, ident, seqn, suid, recp, dev, st, vol⟩ := f
  simp only at hnl hnv
  cases typ <;> first | exact absurd rfl hnl | exact absurd rfl hnv | rfl

/-- C2 (amended): for an inbound envelope whose device descriptor reports
itself active, received while the local state is active, and whose kind is
neither `Load` nor `Volume`: if the envelope's `became_active_at` is
strictly greater than the local one, `process_frame` demotes —
`is_active = false`, `status = Stopped`, a Player stop is issued, and
exactly one broadcast Notify is emitted; if it is less than or equal, the
local active state (`is_active`, `became_active_at`, `status`) is
unchanged and no broadcast Notify is emitted.  (A `Load` envelope
re-claims the active role after the demotion, and `Load`/`Volume`
envelopes emit a second broadcast Notify of their own — see the
counterexample.) -/
theorem active_handoff (now : Nat) (s : SpircState) (f : Frame)
    (hact : f.device_state.is_active = true) (hloc : s.is_active = true)
    (hnl : f.typ ≠ MessageType.kMessageTypeLoad)
    (hnv : f.typ ≠ MessageType.kMessageTypeVolume) :
    (s.became_active_at < f.device_state.became_active_at →
       (processFrame now s f).1.is_active = false ∧
       (processFrame now s f).1.status = PlayStatus.kPlayStatusStop ∧
       Action.playerStop ∈ (processFrame now s f).2 ∧
       countBroadcast (processFrame now s f).2 = 1) ∧
    (f.device_state.became_active_at ≤ s.became_active_at →
       (processFrame now s f).1.is_active = s.is_active ∧
       (processFrame now s f).1.became_active_at = s.became_active_at ∧
       (processFrame now s f).1.status = s.status ∧
       countBroadcast (processFrame now s f).2 = 0) := by
  have hps : processFrame now s f =
      ((dispatch now (handoff (clockMerge s f) f).1 f).1,
       (handoff (clockMerge s f) f).2
         ++ (dispatch now (handoff (clockMerge s f) f).1 f).2) := rfl
  constructor
  · intro hcmp
    have hd := handoff_demote (clockMerge s f) f hact
      (by rw [clockMerge_is_active]; exact hloc)
      (by rw [clockMerge_became_active_at]; exact hcmp)
    rw [hps, hd]
    rw [dispatch_preserves_state now _ f hnl hnv]
    refine ⟨rfl, rfl, List.mem_append_left _ (by simp), ?_⟩
    rw [countBroadcast_append, dispatch_no_broadcast now _ f hnl hnv]
    rfl
  · intro hcmp
    have hd := handoff_no_demote (clockMerge s f) f
      (by rw [clockMerge_became_active_at]; exact hcmp)
    rw [hps, hd]
    rw [dispatch_preserves_state now _ f hnl hnv]
    refine ⟨clockMerge_is_active s f, clockMerge_became_active_at s f, clockMerge_status s f, ?_⟩
    rw [countBroadcast_append, dispatch_no_broadcast now _ f hnl hnv]
    rfl

/-- Local state of an endpoint that is active since time 100. -/
def sActive100 : SpircState :=
  { SpircState.new "a" with is_active := true, became_active_at := 100,
                            status := PlayStatus.kPlayStatusPlay }

/-- Volume envelope from an endpoint active since time 200. -/
def frameVolActive : Frame :=
  { typ := MessageType.kMessageTypeVolume, ident := "b", volume := 10,
    device_state := { is_active := true, became_active_at := 200 } }

/-- C2 counterexample: a `Volume` envelope from a peer active since 200,
received while local is active since 100, demotes the local endpoint but
emits two broadcast Notifies (the demotion one and the volume-change one),
not exactly one. -/
theorem volume_demotion_two_notifies :
    countBroadcast (processFrame 0 sActive100 frameVolActive).2 = 2 ∧ (2 : Nat) ≠ 1 :=
  ⟨by decide, by decide⟩

/-- Hello envelope from an endpoint active since time 200. -/
def frameHello200 : Frame :=
  { typ := MessageType.kMessageTypeHello, ident := "b",
    device_state := { is_active := true, became_active_at := 200 } }

/-- Hello envelope from an endpoint active since time 50. -/
def frameHello50 : Frame :=
  { typ := MessageType.kMessageTypeHello, ident := "b",
    device_state := { is_active := true, became_active_at := 50 } }

/-- C2 witness: the spec's scenario with a Hello envelope — local active
since 100; a peer claim of 200 demotes with exactly one broadcast Notify,
a peer claim of 50 changes nothing and emits no broadcast Notify. -/
theorem active_handoff_witness :
    ((processFrame 0 sActive100 frameHello200).1.is_active = false ∧
     (processFrame 0 sActive100 frameHello200).1.status = PlayStatus.kPlayStatusStop ∧
     Action.playerStop ∈ (processFrame 0 sActive100 frameHello200).2 ∧
     countBroadcast (processFrame 0 sActive100 frameHello200).2 = 1) ∧
    ((processFrame 0 sActive100 frameHello50).1.is_active = sActive100.is_active ∧
     (processFrame 0 sActive100 frameHello50).1.became_active_at = sActive100.became_active_at ∧
     (processFrame 0 sActive100 frameHello50).1.status = sActive100.status ∧
     countBroadcast (processFrame 0 sActive100 frameHello50).2 = 0) :=
  ⟨(active_handoff 0 sActive100 frameHello200 rfl rfl (by decide) (by decide)).1 (by decide),
   (active_handoff 0 sActive100 frameHello50 rfl rfl (by decide) (by decide)).2 (by decide)⟩

/-! ### C7: track-end advance -/

/-- State with three tracks whose `u32` index sits at the type's maximum. -/
def sWrap : SpircState :=
  { SpircState.new "a" with index := 4294967295,
                            tracks := [⟨[1]⟩, ⟨[2]⟩, ⟨[3]⟩],
                            status := PlayStatus.kPlayStatusPlay }

/-- C7 counterexample: with `track_index = 4294967295` (a valid `u32`
reachable through a Load) and three tracks, the `u32` increment wraps, so
the new index is `0`, while `(track_index + 1) mod 3 = 1` — the handler
does not compute the claimed mathematical value (in debug builds the
increment panics instead). -/
theorem track_end_wrap :
    (handleTrackEnd 0 sWrap).map (fun r => r.1.index) = some 0 ∧
    (4294967295 + 1) % 3 = 1 :=
  ⟨by decide, by decide⟩

/-- C7 (amended): for every non-empty `track_list`, a `TrackEnded` event
sets `track_index` to `((track_index + 1) mod 2^32) mod len(track_list)` —
which equals `(track_index + 1) mod len(track_list)` whenever
`track_index + 1 < 2^32` — instructs the Player to load the track at the
new index, sets `update_id = now`, `position_ms = 0`,
`position_measured_at = now`, and broadcasts a Notify. -/
theorem track_end_advances (now : Nat) (s : SpircState) (h : s.tracks.length ≠ 0) :
    handleTrackEnd now s =
      some ({ s with index := ((s.index + 1) % 2 ^ 32) % s.tracks.length,
                     update_id := i64ofU64 now,
                     position_ms := 0,
                     position_measured_at := now % 2 ^ 64 },
            [Action.playerLoad (s.tracks.get
                ⟨((s.index + 1) % 2 ^ 32) % s.tracks.length,
                 Nat.mod_lt _ (Nat.pos_of_ne_zero h)⟩),
             Action.notify none]) ∧
    (s.index + 1 < 2 ^ 32 →
       ((s.index + 1) % 2 ^ 32) % s.tracks.length = (s.index + 1) % s.tracks.length) := by
  constructor
  · unfold handleTrackEnd
    rw [dif_neg h]
  · intro hlt
    rw [Nat.mod_eq_of_lt hlt]

/-- State with `track_list` of length 3 and `track_index = 2`. -/
def sThree : SpircState :=
  { SpircState.new "a" with index := 2,
                            tracks := [⟨[1]⟩, ⟨[2]⟩, ⟨[3]⟩],
                            status := PlayStatus.kPlayStatusPlay }

/-- C7 witness: the spec's scenario — length 3, index 2: the new index is
0, `load(track_list[0])` is issued, position is reset, and a broadcast
Notify follows. -/
theorem track_end_advances_witness :
    sThree.tracks.length ≠ 0 ∧
    (handleTrackEnd 7 sThree).map
        (fun r => (r.1.index, r.1.update_id, r.1.position_ms, r.1.position_measured_at, r.2)) =
      some (0, 7, 0, 7, [Action.playerLoad ⟨[1]⟩, Action.notify none]) := by
  have h := track_end_advances 7 sThree (by decide)
  refine ⟨by decide, ?_⟩
  rw [h.1]
  rfl

/-! ### C5: Load semantics -/

theorem handoff_cases (s : SpircState) (f : Frame) :
    handoff s f = (s, []) ∨
    (s.is_active = true ∧
     handoff s f =
       ({ s with is_active := false, status := PlayStatus.kPlayStatusStop },
        [Action.playerStop, Action.notify none])) := by
  unfold handoff
  split
  · next h =>
      right
      simp only [Bool.and_eq_true, decide_eq_true_eq] at h
      exact ⟨h.1.2, rfl⟩
  · left; rfl

theorem dispatch_load (now : Nat) (sd : SpircState) (f : Frame)
    (hf : f.typ = MessageType.kMessageTypeLoad) :
    (dispatch now sd f).1.tracks = loadedTracks f.state ∧
    (dispatch now sd f).1.index = f.state.playing_track_index ∧
    (sd.is_active = false →
       (dispatch now sd f).1.is_active = true ∧
       (dispatch now sd f).1.became_active_at = i64ofU64 now) ∧
    (∀ hlt : f.state.playing_track_index < (loadedTracks f.state).length,
       Action.playerLoad ((loadedTracks f.state).get ⟨f.state.playing_track_index, hlt⟩)
           ∈ (dispatch now sd f).2 ∧
       (dispatch now sd f).1.status = PlayStatus.kPlayStatusPlay ∧
       (dispatch now sd f).1.position_ms = 0 ∧
       (dispatch now sd f).1.position_measured_at = now % 2 ^ 64) ∧
    Action.notify none ∈ (dispatch now sd f).2 := by
  obtain ⟨typ, ident, seqn, suid, recp, dev, st, vol⟩ := f
  simp only at hf
  subst hf
  by_cases hb : st.playing_track_index < (loadedTracks st).length
  · cases hsa : sd.is_active
    · simp only [dispatch, SpircState.load_tracks, hsa, Bool.false_eq_true, if_false]
      rw [dif_pos hb]
      exact ⟨rfl, rfl, fun _ => ⟨rfl, rfl⟩,
             fun hlt => ⟨List.mem_cons_self _ _, rfl, rfl, rfl⟩, by simp⟩
    · simp only [dispatch, SpircState.load_tracks, hsa, if_true]
      rw [dif_pos hb]
      exact ⟨rfl, rfl, fun h0 => by simp [hsa] at h0,
             fun hlt => ⟨List.mem_cons_self _ _, rfl, rfl, rfl⟩, by simp⟩
  · cases hsa : sd.is_active
    · simp only [dispatch, SpircState.load_tracks, hsa, Bool.false_eq_true, if_false]
      rw [dif_neg hb]
      exact ⟨rfl, rfl, fun _ => ⟨rfl, rfl⟩, fun hlt => absurd hlt hb, by simp⟩
    · simp only [dispatch, SpircState.load_tracks, hsa, if_true]
      rw [dif_neg hb]
      exact ⟨rfl, rfl, fun h0 => by simp [hsa] at h0, fun hlt => absurd hlt hb, by simp⟩

/-- C5: a `Load` envelope makes `process_frame` replace `track_list` with
exactly the envelope's attached track references that carry a gid (in
order, others discarded) and set `track_index` to the attached index; when
the endpoint was not already active it claims the active role
(`is_active = true`, `became_active_at = now`); when the resulting index is
within bounds of the new list it instructs the Player to load that track,
sets `status = Playing`, `position_ms = 0`, `position_measured_at = now`;
and a broadcast Notify is emitted in every case. -/
theorem process_load (now : Nat) (s : SpircState) (f : Frame)
    (hf : f.typ = MessageType.kMessageTypeLoad) :
    (processFrame now s f).1.tracks = loadedTracks f.state ∧
    (processFrame now s f).1.index = f.state.playing_track_index ∧
    (s.is_active = false →
       (processFrame now s f).1.is_active = true ∧
       (processFrame now s f).1.became_active_at = i64ofU64 now) ∧
    (∀ hlt : f.state.playing_track_index < (loadedTracks f.state).length,
       Action.playerLoad ((loadedTracks f.state).get ⟨f.state.playing_track_index, hlt⟩)
           ∈ (processFrame now s f).2 ∧
       (processFrame now s f).1.status = PlayStatus.kPlayStatusPlay ∧
       (processFrame now s f).1.position_ms = 0 ∧
       (processFrame now s f).1.position_measured_at = now % 2 ^ 64) ∧
    Action.notify none ∈ (processFrame now s f).2 := by
  have hps : processFrame now s f =
      ((dispatch now (handoff (clockMerge s f) f).1 f).1,
       (handoff (clockMerge s f) f).2
         ++ (dispatch now (handoff (clockMerge s f) f).1 f).2) := rfl
  rcases handoff_cases (clockMerge s f) f with hd | ⟨hb, hd⟩
  · rw [hps, hd]
    have DL := dispatch_load now (clockMerge s f) f hf
    refine ⟨DL.1, DL.2.1, ?_, ?_, List.mem_append_right _ DL.2.2.2.2⟩
    · intro h0
      exact DL.2.2.1 (by rw [clockMerge_is_active]; exact h0)
    · intro hlt
      obtain ⟨hm, h1, h2, h3⟩ := DL.2.2.2.1 hlt
      exact ⟨List.mem_append_right _ hm, h1, h2, h3⟩
  · rw [hps, hd]
    have DL := dispatch_load now
      ({ clockMerge s f with is_active := false, status := PlayStatus.kPlayStatusStop }) f hf
    refine ⟨DL.1, DL.2.1, ?_, ?_, List.mem_append_right _ DL.2.2.2.2⟩
    · intro h0
      exact DL.2.2.1 rfl
    · intro hlt
      obtain ⟨hm, h1, h2, h3⟩ := DL.2.2.2.1 hlt
      exact ⟨List.mem_append_right _ hm, h1, h2, h3⟩

/-- Load envelope attaching tracks with gids `[1]`, `[2]`, `[3]` and
playing index 1. -/
def frameLoad3 : Frame :=
  { typ := MessageType.kMessageTypeLoad, ident := "b",
    state := { playing_track_index := 1,
               track := [{ gid := some [1] }, { gid := some [2] }, { gid := some [3] }] } }

/-- C5 witness: the spec's scenario — a Load of `[T1, T2, T3]` (all valid)
with index 1 on an inactive endpoint at time 9 yields
`track_list = [T1, T2, T3]`, `track_index = 1`, an active claim stamped 9,
`load(T2)`, `status = Playing`, `position_ms = 0`, and a broadcast
Notify. -/
theorem process_load_witness :
    frameLoad3.typ = MessageType.kMessageTypeLoad ∧
    (processFrame 9 (SpircState.new "a") frameLoad3).1.tracks = [⟨[1]⟩, ⟨[2]⟩, ⟨[3]⟩] ∧
    (processFrame 9 (SpircState.new "a") frameLoad3).1.index = 1 ∧
    (processFrame 9 (SpircState.new "a") frameLoad3).1.is_active = true ∧
    (processFrame 9 (SpircState.new "a") frameLoad3).1.became_active_at = 9 ∧
    Action.playerLoad ⟨[2]⟩ ∈ (processFrame 9 (SpircState.new "a") frameLoad3).2 ∧
    (processFrame 9 (SpircState.new "a") frameLoad3).1.status = PlayStatus.kPlayStatusPlay ∧
    (processFrame 9 (SpircState.new "a") frameLoad3).1.position_ms = 0 ∧
    Action.notify none ∈ (processFrame 9 (SpircState.new "a") frameLoad3).2 := by
  obtain ⟨h1, h2, h3, h4, h5⟩ := process_load 9 (SpircState.new "a") frameLoad3 rfl
  obtain ⟨ha, hba⟩ := h3 rfl
  obtain ⟨hm, hst, hpm, hmt⟩ := h4 (by decide)
  exact ⟨rfl, by rw [h1]; rfl, h2, ha, hba, hm, hst, hpm, h5⟩

end Spirc
